import Mathlib

/-!
Shallow embedding of the Sovereign Filter core (sovereign-filter module):
sender classification, the in-memory batch queue, the filter engine with its
registry/archive side effects, relationship nudges, row-key normalization,
and the dispatch integration wrapper.

External collaborators (the Azure Table backend, the dispatch pipeline) are
modelled as explicit state and parameters: the urgency table is an
association list keyed by normalized row key, backend faults are explicit
`Bool` parameters, and the current time is passed in as a value.
-/

-- ---------------------------------------------------------------------------
-- Data model (types.ts)
-- ---------------------------------------------------------------------------

/-- How the filter classifies an inbound sender (closed three-way enum). -/
inductive SenderClassification where
  | priorityHuman
  | knownHuman
  | systemNoise
deriving DecidableEq, Repr

/-- Action component of a `SovereignFilterOutcome`. -/
inductive FilterAction where
  | deliverRaw
  | batch
  | archive
deriving DecidableEq, Repr

/-- Outcome of sovereign-filter processing for one inbound message. -/
structure SovereignFilterOutcome where
  action : FilterAction
  classification : SenderClassification
deriving DecidableEq, Repr

/-- A single row in the sovereign urgency table. -/
structure UrgencyTableEntry where
  partitionKey : String
  rowKey : String
  displayName : String
  isPriority : Bool
  lastMessageAt : Option String := none
  lastRepliedAt : Option String := none
  notes : Option String := none
deriving DecidableEq, Repr

/-- A system-noise message archived silently. -/
structure ArchivedNoiseEntity where
  partitionKey : String
  rowKey : String
  provider : String
  senderId : String
  senderName : Option String := none
  body : String
  receivedAt : String
  sessionKey : Option String := none
deriving DecidableEq, Repr

/-- A message held for batched delivery on the standard human track. -/
structure BatchedMessage where
  senderId : String
  senderName : Option String := none
  body : String
  provider : Option String := none
  receivedAt : String
  sessionKey : Option String := none
  originatingChannel : Option String := none
  originatingTo : Option String := none
deriving DecidableEq, Repr

/-- A nudge to restore affinity with a key contact. -/
structure RelationshipNudge where
  contactName : String
  contactId : String
  silentHours : Int
  suggestion : String
deriving DecidableEq, Repr

/-- Runtime configuration for the sovereign filter. -/
structure SovereignFilterConfig where
  enabled : Bool
  batchSchedule : String
  nudgeAfterSilentHours : Int
deriving DecidableEq, Repr

/-- Default config: filter disabled, daily batch at 09:00, 72h nudge window. -/
def DEFAULT_SOVEREIGN_FILTER_CONFIG : SovereignFilterConfig :=
  { enabled := false, batchSchedule := "0 9 * * *", nudgeAfterSilentHours := 72 }

/-- The fields of `MsgContext` consumed by the sovereign filter. Optional
fields are `Option` (JS `undefined`), so `a ?? b` is `a.getD`-style fallback
on `none` only (an empty string is a present value). -/
structure MsgContext where
  SenderId : Option String := none
  From : Option String := none
  SenderName : Option String := none
  Body : Option String := none
  Provider : Option String := none
  Surface : Option String := none
  SessionKey : Option String := none
  MessageSid : Option String := none
  OriginatingChannel : Option String := none
  OriginatingTo : Option String := none
deriving DecidableEq, Repr

/-- Result of classifying an inbound message. -/
structure ClassificationResult where
  classification : SenderClassification
  contactEntry : Option UrgencyTableEntry := none
deriving DecidableEq, Repr

-- ---------------------------------------------------------------------------
-- Row-key normalization (storage.ts: normalizeRowKey)
-- ---------------------------------------------------------------------------

/-- Characters `encodeURIComponent` leaves unescaped: ASCII alphanumerics and
`- _ . ! ~ * ' ( )` (ECMA-262 uriUnescaped). -/
def unreservedChar (c : Char) : Bool :=
  (65 ≤ c.toNat && c.toNat ≤ 90) || (97 ≤ c.toNat && c.toNat ≤ 122) ||
  (48 ≤ c.toNat && c.toNat ≤ 57) ||
  c.toNat = 45 || c.toNat = 95 || c.toNat = 46 || c.toNat = 33 ||
  c.toNat = 126 || c.toNat = 42 || c.toNat = 39 || c.toNat = 40 || c.toNat = 41

/-- UTF-8 bytes of a code point (arithmetic form of the usual bit twiddling). -/
def utf8Bytes (n : Nat) : List Nat :=
  if n < 128 then [n]
  else if n < 2048 then [192 + n / 64, 128 + n % 64]
  else if n < 65536 then [224 + n / 4096, 128 + (n / 64) % 64, 128 + n % 64]
  else [240 + n / 262144, 128 + (n / 4096) % 64, 128 + (n / 64) % 64, 128 + n % 64]

/-- Uppercase hex digit for a nibble. -/
def hexDigit (n : Nat) : Char :=
  if n < 10 then Char.ofNat (48 + n) else Char.ofNat (55 + n)

/-- Percent-escape of one byte, e.g. 47 ↦ `%2F`. -/
def pctEncodeByte (b : Nat) : List Char :=
  [Char.ofNat 37, hexDigit (b / 16), hexDigit (b % 16)]

/-- `encodeURIComponent` on a single character. -/
def encodeURIComponentChar (c : Char) : List Char :=
  if unreservedChar c then [c] else (utf8Bytes c.toNat).flatMap pctEncodeByte

/-- ECMAScript `encodeURIComponent`, as a function on character lists. -/
def encodeURIComponentChars (cs : List Char) : List Char :=
  cs.flatMap encodeURIComponentChar

/-- The global replacement `% → $` applied to one character. -/
def replacePct (c : Char) : Char :=
  if c = Char.ofNat 37 then Char.ofNat 36 else c

/-- `encodeURIComponent(raw).replace(/%/g, "$")` on character lists. -/
def normalizeRowKeyChars (cs : List Char) : List Char :=
  (encodeURIComponentChars cs).map replacePct

/-- Normalize a sender id for use as an Azure Table row key (no /, \, #, ?):
`encodeURIComponent(raw).replace(/%/g, "$")`. -/
def normalizeRowKey (raw : String) : String :=
  String.mk (normalizeRowKeyChars raw.data)

-- ---------------------------------------------------------------------------
-- Storage client model (storage.ts)
-- ---------------------------------------------------------------------------

/-- Faults that a registry/archive call can surface. `notFound` is the 404
the storage SDK raises when an entity is missing. -/
inductive StorageError where
  | notFound
  | backendFault
deriving DecidableEq, Repr

/-- `isNotFoundError(err)`: the 404 discriminator used by the client. -/
def isNotFoundError : StorageError → Bool
  | .notFound => true
  | .backendFault => false

/-- The urgency table: rows keyed by their (already normalized) row key. -/
def Registry := List (String × UrgencyTableEntry)

instance : DecidableEq Registry := by
  unfold Registry
  infer_instance

/-- Point lookup in the urgency table by raw (pre-normalization) row key. -/
def lookupRow (reg : Registry) (key : String) : Option UrgencyTableEntry :=
  (reg.find? (fun p => p.1 == key)).map (fun p => p.2)

/-- `SovereignStorageClient.getContact`: look up a contact by sender id,
normalizing the id to a row key first; `none` models the swallowed 404. -/
def getContact (reg : Registry) (senderId : String) : Option UrgencyTableEntry :=
  lookupRow reg (normalizeRowKey senderId)

/-- `updateEntity(..., "Merge")` on the urgency table restricted to the
last-message timestamp: 404 when the row is absent, merge otherwise. A
backend fault other than 404 is injected through `fault`. -/
def updateEntityMergeLastMessage (reg : Registry) (key nowIso : String)
    (fault : Bool) : Except StorageError Registry :=
  if fault then .error .backendFault
  else if (lookupRow reg key).isSome then
    .ok (reg.map (fun p =>
      if p.1 == key then (p.1, { p.2 with lastMessageAt := some nowIso }) else p))
  else .error .notFound

/-- `SovereignStorageClient.touchContactLastMessage`: merge-update only the
last-message timestamp; a 404 (contact does not exist yet) is silently
ignored, any other error is rethrown. -/
def touchContactLastMessage (reg : Registry) (senderId nowIso : String)
    (fault : Bool) : Except StorageError Registry :=
  let key := normalizeRowKey senderId
  match updateEntityMergeLastMessage reg key nowIso fault with
  | .ok r => .ok r
  | .error e => if isNotFoundError e then .ok reg else .error e

-- ---------------------------------------------------------------------------
-- Classifier (filter.ts: classifySender)
-- ---------------------------------------------------------------------------

/-- `ctx.SenderId ?? ctx.From ?? ""`: the effective sender id. -/
def effectiveSenderId (ctx : MsgContext) : String :=
  ctx.SenderId.getD (ctx.From.getD "")

/-- `classifySender`, with the number of registry lookups it performed as a
second component. Empty effective id short-circuits to system-noise with no
lookup; otherwise one `getContact` lookup decides among the three tracks. -/
def classifySender (ctx : MsgContext) (reg : Registry) :
    ClassificationResult × Nat :=
  let senderId := effectiveSenderId ctx
  if senderId = "" then
    ({ classification := .systemNoise }, 0)
  else
    match getContact reg senderId with
    | some contact =>
        ({ classification :=
             if contact.isPriority then .priorityHuman else .knownHuman,
           contactEntry := some contact }, 1)
    | none => ({ classification := .systemNoise }, 1)

-- ---------------------------------------------------------------------------
-- Batch queue, value-level model (filter.ts: MessageBatchQueue)
-- ---------------------------------------------------------------------------

/-- The in-memory batch queue, viewed by its contents. -/
structure MessageBatchQueue where
  queue : List BatchedMessage
deriving DecidableEq, Repr

/-- A fresh queue (`private queue: BatchedMessage[] = []`). -/
def MessageBatchQueue.empty : MessageBatchQueue := ⟨[]⟩

/-- `enqueue(msg)`: `this.queue.push(msg)`. -/
def MessageBatchQueue.enqueue (q : MessageBatchQueue) (msg : BatchedMessage) :
    MessageBatchQueue :=
  ⟨q.queue ++ [msg]⟩

/-- `drain()`: copy out all queued messages and clear the queue. -/
def MessageBatchQueue.drain (q : MessageBatchQueue) :
    List BatchedMessage × MessageBatchQueue :=
  (q.queue, ⟨[]⟩)

/-- `peek()`: the current contents (value view; aliasing is studied on the
reference-level model below). -/
def MessageBatchQueue.peek (q : MessageBatchQueue) : List BatchedMessage :=
  q.queue

/-- `get size()`: number of queued messages. -/
def MessageBatchQueue.size (q : MessageBatchQueue) : Nat :=
  q.queue.length

-- ---------------------------------------------------------------------------
-- Batch queue, reference-level model (JS heap semantics of the same class)
-- ---------------------------------------------------------------------------

/-- The queue object together with the array heap it lives in: `cells i` is
the contents of array object `i`, and `ref` is the array currently held in
the private `queue` field. JS arrays are reference values, so methods that
return `this.queue` return the cell index, not a copy. -/
structure QueueObj where
  cells : List (List BatchedMessage)
  ref : Nat
deriving DecidableEq, Repr

/-- `new MessageBatchQueue()`: one fresh empty array on the heap. -/
def QueueObj.fresh : QueueObj := ⟨[[]], 0⟩

/-- Contents of heap cell `i`. -/
def QueueObj.readCell (q : QueueObj) (i : Nat) : List BatchedMessage :=
  q.cells.getD i []

/-- Overwrite heap cell `i` (a caller mutating an array it holds). -/
def QueueObj.writeCell (q : QueueObj) (i : Nat) (v : List BatchedMessage) :
    QueueObj :=
  ⟨q.cells.set i v, q.ref⟩

/-- `enqueue(msg)`: in-place `push` on the array behind `this.queue`. -/
def QueueObj.enqueue (q : QueueObj) (msg : BatchedMessage) : QueueObj :=
  q.writeCell q.ref (q.readCell q.ref ++ [msg])

/-- `drain()`: `[...this.queue]` copies the elements, then `this.queue = []`
points the field at a newly allocated empty array. -/
def QueueObj.drain (q : QueueObj) : List BatchedMessage × QueueObj :=
  (q.readCell q.ref, ⟨q.cells ++ [[]], q.cells.length⟩)

/-- `peek()`: `return this.queue` — the reference to the internal array
itself, not a copy of it. -/
def QueueObj.peek (q : QueueObj) : Nat := q.ref

/-- `get size()`: length of the array behind `this.queue`. -/
def QueueObj.size (q : QueueObj) : Nat := (q.readCell q.ref).length

-- ---------------------------------------------------------------------------
-- Silent archive helper (filter.ts: archiveSystemNoise)
-- ---------------------------------------------------------------------------

/-- The `ArchivedNoiseEntity` built by `archiveSystemNoise`. `nowIso` stands
for `new Date().toISOString()`; `fallbackId` stands for the generated
`Date.now()-random` row key used when `MessageSid` is absent. -/
def archiveEntityOf (ctx : MsgContext) (nowIso fallbackId : String) :
    ArchivedNoiseEntity :=
  { partitionKey := nowIso.take 10
    rowKey := ctx.MessageSid.getD fallbackId
    provider := ctx.Provider.getD (ctx.Surface.getD "unknown")
    senderId := ctx.SenderId.getD (ctx.From.getD "unknown")
    senderName := ctx.SenderName
    body := ctx.Body.getD ""
    receivedAt := nowIso
    sessionKey := ctx.SessionKey }

-- ---------------------------------------------------------------------------
-- Filter engine (filter.ts: applySovereignFilter)
-- ---------------------------------------------------------------------------

/-- Environment of one `applySovereignFilter` run: the clock reading, the
generated fallback archive row key, and fault injection for the two
storage writes that can fail (the archive upsert and the detached
last-message touch). -/
structure FilterEnv where
  nowIso : String
  fallbackId : String
  archiveFault : Bool
  touchFault : Bool
deriving DecidableEq, Repr

/-- Observable state threaded through a filter run: the urgency table, the
batch queue contents, the archive table as a log of completed writes, and
counters of registry lookups and touch attempts. -/
structure FilterState where
  registry : Registry
  queue : List BatchedMessage
  archive : List ArchivedNoiseEntity
  lookups : Nat
  touchCalls : Nat
deriving DecidableEq

/-- The registry after the detached (`void`-ed) touch task settles: its
rejection is unobservable to the main flow, so a failure leaves the
registry as it was. -/
def detachedTouch (reg : Registry) (senderId nowIso : String) (fault : Bool) :
    Registry :=
  match touchContactLastMessage reg senderId nowIso fault with
  | .ok r => r
  | .error _ => reg

/-- The `BatchedMessage` that `applySovereignFilter` builds from the raw
inbound fields for a known human. -/
def batchedMessageOf (ctx : MsgContext) (nowIso : String) : BatchedMessage :=
  { senderId := effectiveSenderId ctx
    senderName := ctx.SenderName
    body := ctx.Body.getD ""
    provider := ctx.Provider <|> ctx.Surface
    receivedAt := nowIso
    sessionKey := ctx.SessionKey
    originatingChannel := ctx.OriginatingChannel
    originatingTo := ctx.OriginatingTo }

/-- `applySovereignFilter`: classify, then perform the side effects of the
matching branch. The archive write is awaited, so its fault propagates as
`.error`; the touch is fire-and-forget, so its fault never does. -/
def applySovereignFilter (ctx : MsgContext) (env : FilterEnv)
    (st : FilterState) :
    Except StorageError (SovereignFilterOutcome × FilterState) :=
  let cls := classifySender ctx st.registry
  let sid := effectiveSenderId ctx
  let st0 := { st with lookups := st.lookups + cls.2 }
  match cls.1.classification with
  | .priorityHuman =>
      .ok ({ action := .deliverRaw, classification := .priorityHuman },
           { st0 with
               registry := detachedTouch st0.registry sid env.nowIso env.touchFault
               touchCalls := st0.touchCalls + 1 })
  | .knownHuman =>
      .ok ({ action := .batch, classification := .knownHuman },
           { st0 with
               registry := detachedTouch st0.registry sid env.nowIso env.touchFault
               touchCalls := st0.touchCalls + 1
               queue := st0.queue ++ [batchedMessageOf ctx env.nowIso] })
  | .systemNoise =>
      if env.archiveFault then .error .backendFault
      else
        .ok ({ action := .archive, classification := .systemNoise },
             { st0 with
                 archive := st0.archive ++ [archiveEntityOf ctx env.nowIso env.fallbackId] })

-- ---------------------------------------------------------------------------
-- Relationship maintenance (storage.ts: findSilentContacts; filter.ts)
-- ---------------------------------------------------------------------------

/-- Timestamps are modelled as epoch milliseconds: a stored contact carries
`lastMessageAtMs = new Date(lastMessageAt).getTime()` when the ISO field is
present and non-empty (JS truthiness), `none` otherwise. -/
def lastMessageAtMs : Option Int → Option Int := id

/-- `Math.round(num / den)` for `den > 0`: floor of the quotient plus a half. -/
def jsRound (num den : Int) : Int :=
  Int.fdiv (2 * num + den) (2 * den)

/-- A contact record as seen by the nudge scan: the parsed last-message
instant together with the fields `buildNudge` reads. -/
structure NudgeContact where
  rowKey : String
  displayName : String
  lastMessageAt : Option Int
  notes : Option String := none
deriving DecidableEq, Repr

/-- `findSilentContacts(silentHours)`: keep contacts never messaged, or whose
last message is strictly older than `now − silentHours` hours. -/
def findSilentContacts (contacts : List NudgeContact) (silentHours : Int)
    (nowMs : Int) : List NudgeContact :=
  let cutoff := nowMs - silentHours * 3600000
  contacts.filter (fun c =>
    match c.lastMessageAt with
    | none => true
    | some t => decide (t < cutoff))

/-- `buildNudge(contact, silentHours)`: hours silent (rounded from the
timestamp, or the threshold verbatim) and the suggestion text (from notes
when present and non-empty — JS truthiness — else the generic line). -/
def buildNudge (c : NudgeContact) (silentHours : Int) (nowMs : Int) :
    RelationshipNudge :=
  let hours := match c.lastMessageAt with
    | some t => jsRound (nowMs - t) 3600000
    | none => silentHours
  let useNotes := match c.notes with
    | some n => !n.isEmpty
    | none => false
  let suggestion :=
    if useNotes then
      "Consider acknowledging " ++ c.displayName ++ " for: " ++ c.notes.getD ""
    else
      "It\x27s been " ++ toString hours ++ " hours since you last connected with "
        ++ c.displayName ++ ". Consider reaching out."
  { contactName := c.displayName
    contactId := c.rowKey
    silentHours := hours
    suggestion := suggestion }

/-- `generateRelationshipNudges`: one nudge per silent contact. -/
def generateRelationshipNudges (contacts : List NudgeContact)
    (config : SovereignFilterConfig) (nowMs : Int) : List RelationshipNudge :=
  (findSilentContacts contacts config.nudgeAfterSilentHours nowMs).map
    (fun c => buildNudge c config.nudgeAfterSilentHours nowMs)

-- ---------------------------------------------------------------------------
-- Dispatch integration (dispatch-integration.ts)
-- ---------------------------------------------------------------------------

/-- Calls the wrapper makes on its collaborators, in order: a pass to the
normal dispatch pipeline, or `dispatcher.markComplete()`. -/
inductive DispatchEvent where
  | normalDispatch
  | markComplete
deriving DecidableEq, Repr

/-- Result of sovereign-aware dispatch: `inner` holds the normal pipeline's
`DispatchInboundResult` (abstract type `α`) exactly when not intercepted. -/
structure SovereignDispatchResult (α : Type) where
  intercepted : Bool
  outcome : SovereignFilterOutcome
  inner : Option α
deriving DecidableEq, Repr

/-- `dispatchWithSovereignFilter`: disabled config falls through to normal
dispatch untouched; otherwise the filter runs and its outcome routes the
message. `dispatchResult` abstracts what `dispatchInboundMessage` returns. -/
def dispatchWithSovereignFilter {α : Type} (ctx : MsgContext)
    (config : SovereignFilterConfig) (env : FilterEnv) (st : FilterState)
    (dispatchResult : α) :
    Except StorageError (SovereignDispatchResult α × FilterState × List DispatchEvent) :=
  if !config.enabled then
    .ok ({ intercepted := false
           outcome := { action := .deliverRaw, classification := .priorityHuman }
           inner := some dispatchResult },
         st, [.normalDispatch])
  else
    match applySovereignFilter ctx env st with
    | .error e => .error e
    | .ok (outcome, st2) =>
        match outcome.action with
        | .deliverRaw =>
            .ok ({ intercepted := false, outcome := outcome,
                   inner := some dispatchResult }, st2, [.normalDispatch])
        | .batch =>
            .ok ({ intercepted := true, outcome := outcome, inner := none },
                 st2, [.markComplete])
        | .archive =>
            .ok ({ intercepted := true, outcome := outcome, inner := none },
                 st2, [.markComplete])

-- ---------------------------------------------------------------------------
-- Concrete fixtures used by witness theorems
-- ---------------------------------------------------------------------------

/-- A priority contact, as in the repository's test fixtures. -/
def aliceEntry : UrgencyTableEntry :=
  { partitionKey := "contacts", rowKey := "user-123", displayName := "Alice",
    isPriority := true }

/-- A known, non-priority contact. -/
def bobEntry : UrgencyTableEntry :=
  { partitionKey := "contacts", rowKey := "user-123", displayName := "Bob",
    isPriority := false }

/-- An inbound message from `user-123` with body `hello`. -/
def ctxHello : MsgContext :=
  { SenderId := some "user-123", From := some "user-123",
    SenderName := some "Alice", Body := some "hello",
    Provider := some "telegram", Surface := some "telegram",
    SessionKey := some "agent:telegram:user:user-123" }

/-- A filter run environment with no injected faults. -/
def envOk : FilterEnv :=
  { nowIso := "2026-10-11T00:00:00.000Z", fallbackId := "1760140800000-abc123",
    archiveFault := false, touchFault := false }

/-- An initial filter state with registry `reg` and empty queue and archive. -/
def initState (reg : Registry) : FilterState :=
  { registry := reg, queue := [], archive := [], lookups := 0, touchCalls := 0 }

-- ---------------------------------------------------------------------------
-- C1: classifySender is total and three-valued
-- ---------------------------------------------------------------------------

/-- Claim C1: `classifySender` is total and three-valued. An empty effective
sender id yields `system-noise` with zero registry lookups; a non-empty id
with no registry record yields `system-noise` after one lookup; a record
with priority flag true yields `priority-human` and with flag false yields
`known-human`; and the classification is always one of those three tags. -/
theorem classifySender_total_three_valued (ctx : MsgContext) (reg : Registry) :
    (effectiveSenderId ctx = "" →
        classifySender ctx reg = ({ classification := .systemNoise }, 0))
    ∧ (effectiveSenderId ctx ≠ "" →
        getContact reg (effectiveSenderId ctx) = none →
        classifySender ctx reg = ({ classification := .systemNoise }, 1))
    ∧ (∀ c, effectiveSenderId ctx ≠ "" →
        getContact reg (effectiveSenderId ctx) = some c → c.isPriority = true →
        classifySender ctx reg =
          ({ classification := .priorityHuman, contactEntry := some c }, 1))
    ∧ (∀ c, effectiveSenderId ctx ≠ "" →
        getContact reg (effectiveSenderId ctx) = some c → c.isPriority = false →
        classifySender ctx reg =
          ({ classification := .knownHuman, contactEntry := some c }, 1))
    ∧ ((classifySender ctx reg).1.classification = .priorityHuman ∨
       (classifySender ctx reg).1.classification = .knownHuman ∨
       (classifySender ctx reg).1.classification = .systemNoise) := by
  refine ⟨?_, ?_, ?_, ?_, ?_⟩
  · intro h
    simp [classifySender, h]
  · intro h hn
    simp [classifySender, h, hn]
  · intro c h hc hp
    simp [classifySender, h, hc, hp]
  · intro c h hc hp
    simp [classifySender, h, hc, hp]
  · rcases (classifySender ctx reg).1.classification with _ | _ | _ <;> simp

/-- Witness for C1 at a concrete registered priority sender. -/
theorem classifySender_total_three_valued_witness :
    classifySender ctxHello [("user-123", aliceEntry)] =
      ({ classification := .priorityHuman, contactEntry := some aliceEntry }, 1) :=
  (classifySender_total_three_valued ctxHello
      [("user-123", aliceEntry)]).2.2.1 aliceEntry
    (by decide) (by decide) (by decide)

-- ---------------------------------------------------------------------------
-- C4: drain after N enqueues is FIFO and empties the queue
-- ---------------------------------------------------------------------------

/-- Folding `enqueue` over a message list appends the list to the contents. -/
theorem MessageBatchQueue.queue_foldl_enqueue (msgs : List BatchedMessage)
    (q : MessageBatchQueue) :
    (msgs.foldl MessageBatchQueue.enqueue q).queue = q.queue ++ msgs := by
  induction msgs generalizing q with
  | nil => simp
  | cons m rest ih =>
      simp [List.foldl_cons, ih, MessageBatchQueue.enqueue]

/-- Claim C4: after any sequence of enqueues on a fresh queue, `drain()`
returns exactly those messages in insertion order, leaves `size = 0`, and
an immediately following `drain()` returns the empty sequence. -/
theorem drain_after_enqueues_fifo (msgs : List BatchedMessage) :
    ((msgs.foldl MessageBatchQueue.enqueue MessageBatchQueue.empty).drain.1 = msgs)
    ∧ ((msgs.foldl MessageBatchQueue.enqueue MessageBatchQueue.empty).drain.2.size = 0)
    ∧ ((msgs.foldl MessageBatchQueue.enqueue MessageBatchQueue.empty).drain.2.drain.1 = []) := by
  refine ⟨?_, rfl, rfl⟩
  simp [MessageBatchQueue.drain, MessageBatchQueue.queue_foldl_enqueue,
    MessageBatchQueue.empty]

-- ---------------------------------------------------------------------------
-- C5: peek aliases the internal storage (reference-level model)
-- ---------------------------------------------------------------------------

/-- A message used to seed the queue in the aliasing scenario. -/
def msgSeed : BatchedMessage :=
  { senderId := "a", body := "hello", receivedAt := "2026-10-11T00:00:00.000Z" }

/-- A message a caller pushes onto the array returned by `peek()`. -/
def msgInjected : BatchedMessage :=
  { senderId := "b", body := "injected", receivedAt := "2026-10-11T00:00:01.000Z" }

/-- Claim C5 fails on the code: `peek()` returns `this.queue` itself (the
reference to the internal array, `readonly` only at the type level), so a
caller that pushes onto the returned array changes the queue's later `size`
from 1 to 2 and makes the next `drain()` return the injected element. -/
theorem peek_aliases_internal_storage :
    (QueueObj.fresh.enqueue msgSeed).peek = (QueueObj.fresh.enqueue msgSeed).ref
    ∧ (QueueObj.fresh.enqueue msgSeed).size = 1
    ∧ ((QueueObj.fresh.enqueue msgSeed).writeCell
        (QueueObj.fresh.enqueue msgSeed).peek
        ((QueueObj.fresh.enqueue msgSeed).readCell
          (QueueObj.fresh.enqueue msgSeed).peek ++ [msgInjected])).size = 2
    ∧ ((QueueObj.fresh.enqueue msgSeed).writeCell
        (QueueObj.fresh.enqueue msgSeed).peek
        ((QueueObj.fresh.enqueue msgSeed).readCell
          (QueueObj.fresh.enqueue msgSeed).peek ++ [msgInjected])).drain.1
      = [msgSeed, msgInjected] := by
  refine ⟨rfl, rfl, rfl, rfl⟩

-- ---------------------------------------------------------------------------
-- C2: applySovereignFilter on registered senders
-- ---------------------------------------------------------------------------

/-- Claim C2: for a registered sender, the outcome is decided by the priority
flag with exactly the matching queue effect. A priority contact yields
`deliver-raw`/`priority-human` and leaves the queue untouched; a
non-priority contact yields `batch`/`known-human`, grows the queue by
exactly one message, and that message's body is the raw inbound body
verbatim. -/
theorem applySovereignFilter_registered (ctx : MsgContext) (env : FilterEnv)
    (st : FilterState) (c : UrgencyTableEntry) (b : String)
    (hsid : effectiveSenderId ctx ≠ "")
    (hc : getContact st.registry (effectiveSenderId ctx) = some c)
    (hb : ctx.Body = some b) :
    (c.isPriority = true →
      ∃ st2, applySovereignFilter ctx env st =
          .ok ({ action := .deliverRaw, classification := .priorityHuman }, st2)
        ∧ st2.queue = st.queue)
    ∧ (c.isPriority = false →
      ∃ st2 m, applySovereignFilter ctx env st =
          .ok ({ action := .batch, classification := .knownHuman }, st2)
        ∧ st2.queue = st.queue ++ [m]
        ∧ st2.queue.length = st.queue.length + 1
        ∧ m.body = b) := by
  constructor
  · intro hp
    refine ⟨{ st with
        registry := detachedTouch st.registry (effectiveSenderId ctx)
          env.nowIso env.touchFault,
        lookups := st.lookups + 1,
        touchCalls := st.touchCalls + 1 }, ?_, rfl⟩
    simp [applySovereignFilter, classifySender, hsid, hc, hp]
  · intro hp
    refine ⟨{ st with
        registry := detachedTouch st.registry (effectiveSenderId ctx)
          env.nowIso env.touchFault,
        lookups := st.lookups + 1,
        touchCalls := st.touchCalls + 1,
        queue := st.queue ++ [batchedMessageOf ctx env.nowIso] },
      batchedMessageOf ctx env.nowIso, ?_, rfl, by simp, ?_⟩
    · simp [applySovereignFilter, classifySender, hsid, hc, hp]
    · simp [batchedMessageOf, hb]

/-- Witness for C2: Bob (non-priority) gets batched with the verbatim body. -/
theorem applySovereignFilter_registered_witness :
    ∃ st2 m,
      applySovereignFilter ctxHello envOk (initState [("user-123", bobEntry)]) =
          .ok ({ action := .batch, classification := .knownHuman }, st2)
        ∧ st2.queue = (initState [("user-123", bobEntry)]).queue ++ [m]
        ∧ st2.queue.length = (initState [("user-123", bobEntry)]).queue.length + 1
        ∧ m.body = "hello" :=
  (applySovereignFilter_registered ctxHello envOk
      (initState [("user-123", bobEntry)]) bobEntry "hello"
      (by decide) (by decide) (by decide)).2 (by decide)

-- ---------------------------------------------------------------------------
-- C3: applySovereignFilter on unknown senders archives or fails loudly
-- ---------------------------------------------------------------------------

/-- Claim C3: for a sender classified as system-noise, a successful archive
write is performed exactly once (the archive log grows by exactly the one
entity built from the message), the queue is untouched, and the
`archive` outcome is only produced after that write; when the archive
write fails, the error propagates and no outcome is returned. -/
theorem applySovereignFilter_unknown (ctx : MsgContext) (env : FilterEnv)
    (st : FilterState)
    (hnoise : (classifySender ctx st.registry).1.classification = .systemNoise) :
    (env.archiveFault = false →
      ∃ st2, applySovereignFilter ctx env st =
          .ok ({ action := .archive, classification := .systemNoise }, st2)
        ∧ st2.queue = st.queue
        ∧ st2.archive = st.archive ++ [archiveEntityOf ctx env.nowIso env.fallbackId])
    ∧ (env.archiveFault = true →
        applySovereignFilter ctx env st = .error .backendFault) := by
  constructor
  · intro hok
    refine ⟨{ st with
        archive := st.archive ++ [archiveEntityOf ctx env.nowIso env.fallbackId],
        lookups := st.lookups + (classifySender ctx st.registry).2 },
      ?_, rfl, rfl⟩
    simp only [applySovereignFilter, hnoise, hok]
    simp
  · intro hfail
    simp only [applySovereignFilter, hnoise, hfail]
    simp

/-- Witness for C3: an unregistered sender's message is archived once. -/
theorem applySovereignFilter_unknown_witness :
    ∃ st2, applySovereignFilter ctxHello envOk (initState []) =
        .ok ({ action := .archive, classification := .systemNoise }, st2)
      ∧ st2.queue = (initState []).queue
      ∧ st2.archive = (initState []).archive
          ++ [archiveEntityOf ctxHello envOk.nowIso envOk.fallbackId] :=
  (applySovereignFilter_unknown ctxHello envOk (initState [])
      (by decide)).1 (by decide)

-- ---------------------------------------------------------------------------
-- C6: the last-message touch is best-effort
-- ---------------------------------------------------------------------------

/-- Claim C6: `touchContactLastMessage` swallows the not-found fault — when
the contact record does not exist the call succeeds and leaves the registry
unchanged — and a failure of the fire-and-forget touch never changes or
fails the filter outcome: for any message, the outcome, error/success
status, queue, archive and counters of `applySovereignFilter` are identical
whether the detached touch faults or not (only the registry bookkeeping may
differ). -/
theorem touch_is_best_effort (reg : Registry) (senderId nowIso : String)
    (ctx : MsgContext) (env : FilterEnv) (tf : Bool) (st : FilterState)
    (hmiss : lookupRow reg (normalizeRowKey senderId) = none) :
    touchContactLastMessage reg senderId nowIso false = .ok reg
    ∧ (applySovereignFilter ctx { env with touchFault := tf } st).map
        (fun r => (r.1, r.2.queue, r.2.archive, r.2.lookups, r.2.touchCalls))
      = (applySovereignFilter ctx env st).map
        (fun r => (r.1, r.2.queue, r.2.archive, r.2.lookups, r.2.touchCalls)) := by
  constructor
  · simp [touchContactLastMessage, updateEntityMergeLastMessage, hmiss,
      isNotFoundError]
  · rcases h : (classifySender ctx st.registry).1.classification with _ | _ | _ <;>
      by_cases ha : env.archiveFault <;>
      simp [applySovereignFilter, h, ha, Except.map]

/-- Witness for C6: touching a missing contact succeeds without change, and
injecting a touch fault on a priority message leaves the observables of the
run untouched. -/
theorem touch_is_best_effort_witness :
    touchContactLastMessage [] "ghost" "2026-10-11T00:00:00.000Z" false = .ok []
    ∧ (applySovereignFilter ctxHello { envOk with touchFault := true }
          (initState [("user-123", aliceEntry)])).map
        (fun r => (r.1, r.2.queue, r.2.archive, r.2.lookups, r.2.touchCalls))
      = (applySovereignFilter ctxHello envOk
          (initState [("user-123", aliceEntry)])).map
        (fun r => (r.1, r.2.queue, r.2.archive, r.2.lookups, r.2.touchCalls)) :=
  touch_is_best_effort [] "ghost" "2026-10-11T00:00:00.000Z" ctxHello envOk
    true (initState [("user-123", aliceEntry)]) (by decide)

-- ---------------------------------------------------------------------------
-- C9: disabled filter is a total bypass
-- ---------------------------------------------------------------------------

/-- Claim C9: with `enabled = false`, `dispatchWithSovereignFilter` returns
`intercepted: false`, routes to exactly one normal dispatch, and leaves the
entire filter state — registry, queue, archive, lookup and touch counters —
verbatim unchanged: the run is observably a total bypass. -/
theorem dispatch_disabled_total_bypass {α : Type} (ctx : MsgContext)
    (config : SovereignFilterConfig) (env : FilterEnv) (st : FilterState)
    (d : α) (hdis : config.enabled = false) :
    dispatchWithSovereignFilter ctx config env st d =
      .ok ({ intercepted := false
             outcome := { action := .deliverRaw, classification := .priorityHuman }
             inner := some d }, st, [.normalDispatch]) := by
  simp [dispatchWithSovereignFilter, hdis]

/-- Witness for C9: a disabled run over a populated registry and a non-empty
queue changes nothing and routes to normal dispatch. -/
theorem dispatch_disabled_total_bypass_witness :
    dispatchWithSovereignFilter ctxHello DEFAULT_SOVEREIGN_FILTER_CONFIG envOk
        { registry := [("user-123", bobEntry)], queue := [msgSeed],
          archive := [], lookups := 0, touchCalls := 0 } (0 : Nat) =
      .ok ({ intercepted := false
             outcome := { action := .deliverRaw, classification := .priorityHuman }
             inner := some 0 },
           { registry := [("user-123", bobEntry)], queue := [msgSeed],
             archive := [], lookups := 0, touchCalls := 0 },
           [.normalDispatch]) :=
  dispatch_disabled_total_bypass ctxHello DEFAULT_SOVEREIGN_FILTER_CONFIG envOk
    { registry := [("user-123", bobEntry)], queue := [msgSeed],
      archive := [], lookups := 0, touchCalls := 0 } 0 (by decide)

-- ---------------------------------------------------------------------------
-- C10: disabled filter reports a constant outcome
-- ---------------------------------------------------------------------------

/-- Claim C10 (implicit): with `enabled = false`, the `outcome` field of any
result of `dispatchWithSovereignFilter` is the constant
`{action: deliver-raw, classification: priority-human}` for every sender,
whatever the registry says about them. -/
theorem dispatch_disabled_outcome_constant {α : Type} (ctx : MsgContext)
    (config : SovereignFilterConfig) (env : FilterEnv) (st : FilterState)
    (d : α) (res : SovereignDispatchResult α × FilterState × List DispatchEvent)
    (hdis : config.enabled = false)
    (hres : dispatchWithSovereignFilter ctx config env st d = .ok res) :
    res.1.outcome =
      { action := .deliverRaw, classification := .priorityHuman } := by
  rw [dispatch_disabled_total_bypass ctx config env st d hdis] at hres
  cases hres
  rfl

/-- Witness for C10: a sender registered as non-priority still gets the
priority-human deliver-raw outcome when the filter is disabled. -/
theorem dispatch_disabled_outcome_constant_witness :
    ({ intercepted := false
       outcome := { action := .deliverRaw, classification := .priorityHuman }
       inner := some () } : SovereignDispatchResult Unit).outcome =
      { action := .deliverRaw, classification := .priorityHuman } :=
  dispatch_disabled_outcome_constant ctxHello DEFAULT_SOVEREIGN_FILTER_CONFIG
    envOk (initState [("user-123", bobEntry)]) ()
    ({ intercepted := false
       outcome := { action := .deliverRaw, classification := .priorityHuman }
       inner := some () },
     initState [("user-123", bobEntry)], [.normalDispatch])
    (by decide) rfl

-- ---------------------------------------------------------------------------
-- C8: relationship nudges
-- ---------------------------------------------------------------------------

/-- Claim C8: a contact with no last-message timestamp always yields a nudge
whose `silentHours` is the configured threshold verbatim; a contact whose
last message is within the threshold is never selected by the silent scan;
a silent contact with a timestamp yields a nudge whose `silentHours` is the
elapsed hours to now, rounded to the nearest integer; and a contact with
non-empty notes gets a suggestion referencing those notes verbatim. -/
theorem generateRelationshipNudges_correct (contacts : List NudgeContact)
    (config : SovereignFilterConfig) (nowMs : Int) (c : NudgeContact)
    (hc : c ∈ contacts) :
    (c.lastMessageAt = none →
        buildNudge c config.nudgeAfterSilentHours nowMs ∈
          generateRelationshipNudges contacts config nowMs
      ∧ (buildNudge c config.nudgeAfterSilentHours nowMs).silentHours =
          config.nudgeAfterSilentHours)
    ∧ (∀ t, c.lastMessageAt = some t →
        nowMs - config.nudgeAfterSilentHours * 3600000 ≤ t →
        c ∉ findSilentContacts contacts config.nudgeAfterSilentHours nowMs)
    ∧ (∀ t, c.lastMessageAt = some t →
        t < nowMs - config.nudgeAfterSilentHours * 3600000 →
        buildNudge c config.nudgeAfterSilentHours nowMs ∈
          generateRelationshipNudges contacts config nowMs
      ∧ (buildNudge c config.nudgeAfterSilentHours nowMs).silentHours =
          jsRound (nowMs - t) 3600000)
    ∧ (∀ ns, c.notes = some ns → ns ≠ "" →
        (buildNudge c config.nudgeAfterSilentHours nowMs).suggestion =
          "Consider acknowledging " ++ c.displayName ++ " for: " ++ ns) := by
  refine ⟨?_, ?_, ?_, ?_⟩
  · intro hnone
    constructor
    · refine List.mem_map_of_mem _ ?_
      simp [findSilentContacts, List.mem_filter, hc, hnone]
    · simp [buildNudge, hnone]
  · intro t ht hrecent
    simp [findSilentContacts, List.mem_filter, ht]
    omega
  · intro t ht hold
    constructor
    · refine List.mem_map_of_mem _ ?_
      simp [findSilentContacts, List.mem_filter, hc, ht]
      omega
    · simp [buildNudge, ht]
  · intro ns hns hne
    have : ns.isEmpty = false := by
      cases hempty : ns.isEmpty
      · rfl
      · exact absurd ((String.isEmpty_iff ns).mp hempty) hne
    simp [buildNudge, hns, this]

/-- A contact silent for exactly 96 hours, with notes. -/
def daveContact : NudgeContact :=
  { rowKey := "old-friend", displayName := "Dave",
    lastMessageAt := some ((1760140800000 : Int) - 96 * 3600000),
    notes := some "helped with the Azure migration" }

/-- Witness for C8: against a 72-hour threshold and now = 1760140800000 ms,
Dave (silent 96 hours, with notes) is nudged with `silentHours = 96` and a
suggestion referencing the notes verbatim. -/
theorem generateRelationshipNudges_correct_witness :
    (buildNudge daveContact 72 1760140800000 ∈
        generateRelationshipNudges [daveContact]
          { DEFAULT_SOVEREIGN_FILTER_CONFIG with nudgeAfterSilentHours := 72 }
          1760140800000
      ∧ (buildNudge daveContact 72 1760140800000).silentHours =
          jsRound (1760140800000 - ((1760140800000 : Int) - 96 * 3600000)) 3600000)
    ∧ (buildNudge daveContact 72 1760140800000).silentHours = 96
    ∧ (buildNudge daveContact 72 1760140800000).suggestion =
        "Consider acknowledging Dave for: helped with the Azure migration" :=
  ⟨(generateRelationshipNudges_correct [daveContact]
      { DEFAULT_SOVEREIGN_FILTER_CONFIG with nudgeAfterSilentHours := 72 }
      1760140800000 daveContact (by decide)).2.2.1
      ((1760140800000 : Int) - 96 * 3600000) rfl (by decide),
   by decide,
   (generateRelationshipNudges_correct [daveContact]
      { DEFAULT_SOVEREIGN_FILTER_CONFIG with nudgeAfterSilentHours := 72 }
      1760140800000 daveContact (by decide)).2.2.2
      "helped with the Azure migration" rfl (by decide)⟩

-- ---------------------------------------------------------------------------
-- C7: normalized row keys avoid all backend-reserved characters
-- ---------------------------------------------------------------------------

/-- Unicode code points are below 0x110000. -/
theorem charToNat_lt (c : Char) : c.toNat < 1114112 := by
  have h : c.val.toNat < 55296 ∨ (57343 < c.val.toNat ∧ c.val.toNat < 1114112) :=
    c.valid
  show c.val.toNat < 1114112
  omega

/-- Every UTF-8 byte of a valid code point fits in one octet. -/
theorem utf8Bytes_lt (n : Nat) (hn : n < 1114112) :
    ∀ b ∈ utf8Bytes n, b < 256 := by
  intro b hb
  simp only [utf8Bytes] at hb
  split_ifs at hb <;> simp at hb <;> omega

/-- After the `%`-to-`$` replacement, an unescaped (unreserved) character is
none of the reserved characters. -/
theorem replacePct_unreserved_safe (c : Char) (h : unreservedChar c = true) :
    replacePct c ≠ '/' ∧ replacePct c ≠ '\\' ∧ replacePct c ≠ '#' ∧
      replacePct c ≠ '?' ∧ replacePct c ≠ '%' := by
  have h37 : c ≠ Char.ofNat 37 := by
    intro he
    rw [he] at h
    exact absurd h (by decide)
  rw [replacePct, if_neg h37]
  refine ⟨?_, ?_, ?_, ?_, ?_⟩ <;> intro he <;> rw [he] at h <;>
    exact absurd h (by decide)

/-- After the `%`-to-`$` replacement, a hex digit is none of the reserved
characters. -/
theorem replacePct_hexDigit_safe (m : Nat) (hm : m < 16) :
    replacePct (hexDigit m) ≠ '/' ∧ replacePct (hexDigit m) ≠ '\\' ∧
      replacePct (hexDigit m) ≠ '#' ∧ replacePct (hexDigit m) ≠ '?' ∧
      replacePct (hexDigit m) ≠ '%' := by
  interval_cases m <;> decide

/-- On all-unreserved input the normalization is the identity. -/
theorem normalizeRowKeyChars_id (cs : List Char)
    (h : ∀ c ∈ cs, unreservedChar c = true) :
    normalizeRowKeyChars cs = cs := by
  induction cs with
  | nil => rfl
  | cons c rest ih =>
      have hc : unreservedChar c = true := h c (by simp)
      have hrest : ∀ x ∈ rest, unreservedChar x = true :=
        fun x hx => h x (by simp [hx])
      have h37 : c ≠ Char.ofNat 37 := by
        intro he
        rw [he] at hc
        exact absurd hc (by decide)
      have hstep : normalizeRowKeyChars (c :: rest) =
          replacePct c :: normalizeRowKeyChars rest := by
        simp [normalizeRowKeyChars, encodeURIComponentChars,
          encodeURIComponentChar, hc]
      rw [hstep, replacePct, if_neg h37, ih hrest]

/-- Claim C7: for every input, the normalized row key contains none of the
characters `/`, `\`, `#`, `?` and no literal percent sign; and on inputs
made only of unreserved characters the normalization is the identity. -/
theorem normalizeRowKey_safe (raw : String) :
    (∀ c ∈ (normalizeRowKey raw).data,
        c ≠ '/' ∧ c ≠ '\\' ∧ c ≠ '#' ∧ c ≠ '?' ∧ c ≠ '%')
    ∧ ((∀ c ∈ raw.data, unreservedChar c = true) → normalizeRowKey raw = raw) := by
  constructor
  · intro d hd
    have hd2 : d ∈ normalizeRowKeyChars raw.data := hd
    rw [normalizeRowKeyChars, List.mem_map] at hd2
    obtain ⟨c1, hc1, rfl⟩ := hd2
    rw [encodeURIComponentChars, List.mem_flatMap] at hc1
    obtain ⟨c0, _, hc1⟩ := hc1
    rw [encodeURIComponentChar] at hc1
    by_cases hu : unreservedChar c0
    · rw [if_pos hu] at hc1
      simp at hc1
      subst hc1
      exact replacePct_unreserved_safe _ hu
    · rw [if_neg hu, List.mem_flatMap] at hc1
      obtain ⟨b, hb, hc1⟩ := hc1
      have hb256 : b < 256 := utf8Bytes_lt c0.toNat (charToNat_lt c0) b hb
      rw [pctEncodeByte] at hc1
      simp only [List.mem_cons, List.not_mem_nil, or_false] at hc1
      rcases hc1 with rfl | rfl | rfl
      · decide
      · exact replacePct_hexDigit_safe (b / 16) (by omega)
      · exact replacePct_hexDigit_safe (b % 16) (by omega)
  · intro hall
    rw [normalizeRowKey, normalizeRowKeyChars_id raw.data hall]

/-- Witness for C7: `normalizeRowKey("user123") == "user123"`, and the
encoded key is reserved-character-free. -/
theorem normalizeRowKey_safe_witness :
    (∀ c ∈ (normalizeRowKey "user123").data,
        c ≠ '/' ∧ c ≠ '\\' ∧ c ≠ '#' ∧ c ≠ '?' ∧ c ≠ '%')
    ∧ normalizeRowKey "user123" = "user123" :=
  ⟨(normalizeRowKey_safe "user123").1,
   (normalizeRowKey_safe "user123").2 (by decide)⟩
